import Mathlib

/-!
# Shallow embedding of the Bayeux long-polling client (`client.go`)

The repository is a Go client for the Bayeux publish/subscribe protocol.
This file embeds the parts of `client.go` that the verified claims are
about:

* the message / envelope data model (`Message`, `metaMessage`),
* the transport layer `send` (one HTTP POST, batch decode, demultiplex
  replies from pushed messages),
* the subscription registry (a Go `map[string]interface{}` holding either
  a `subscription` value or the `""` placeholder written by
  `doForgetSubscription`),
* the operations `handshake`, `subscribe`, `Unsubscribe`, `disconnect`,
  `ensureConnected`, `Close`,
* the long-poll `worker` loop, as a step function over the three events
  its `select` races (queued message, tomb dying, interval tick).

The external glob library (`ohmyglob`) is modelled abstractly, exactly as
the spec describes its interface: a compiled pattern carries a canonical
string form (`glob.String()`) and a matching predicate
(`glob.MatchString`).  HTTP is modelled by an outcome value describing
what the single POST of a `send` call produced (network error, status,
body read result, parse result).  A Go nil-pointer dereference is made
explicit as the `GoResult.panic` outcome.
-/

namespace BayeuxClient

/-- `Message` (client.go:37-43): the value delivered to subscribers.
`data` stands for the opaque `json.RawMessage` payload. -/
structure Message where
  channel : String
  data : String
  id : String
  clientId : String
  deriving DecidableEq, Repr

/-- `metaMessage` (client.go:69-80): a response envelope, the embedded
`Message` plus the protocol fields the claims need (`successful`,
`error`).  The remaining fields (advice, timestamp, version) never
influence control flow in `client.go` and are omitted. -/
structure MetaMessage where
  channel : String
  data : String
  id : String
  clientId : String
  successful : Bool
  error : String
  deriving DecidableEq, Repr

/-- The embedded `Message` part of a `metaMessage` (`msg.Message` at
client.go:305). -/
def MetaMessage.toMessage (m : MetaMessage) : Message :=
  ⟨m.channel, m.data, m.id, m.clientId⟩

/-- A compiled glob from the external `ohmyglob` library, as the spec
describes its interface: `canonical` is `glob.String()` (the canonical
string form used as registry key) and `matchString` is
`glob.MatchString`. -/
structure Glob where
  canonical : String
  matchString : String → Bool

/-- Destinations (the caller-supplied `chan *Message` values) are
identified abstractly. -/
abbrev Dest := Nat

/-- `subscription` (client.go:45-48). -/
structure Subscription where
  glob : Glob
  out : Dest

/-- One value of the registry map `map[string]interface{}`
(client.go:29): either a real `subscription`, or the `""` placeholder
string stored by `doForgetSubscription` (client.go:139), on which the
worker's type assertion `sub.(subscription)` fails. -/
inductive RegEntry
  | active (s : Subscription)
  | placeholder

/-- The subscription registry `c.subscriptions`, a Go map from string
keys to entries, modelled as an association list with map-update
semantics. -/
abbrev Registry := List (String × RegEntry)

/-- Go map assignment `m[k] = v`: replace the value at an existing key,
otherwise add the key. -/
def mapSet : Registry → String → RegEntry → Registry
  | [], k, v => [(k, v)]
  | (k0, e0) :: rest, k, v =>
    if k0 == k then (k, v) :: rest else (k0, e0) :: mapSet rest k v

/-- Go map lookup `m[k]`. -/
def mapGet (reg : Registry) (k : String) : Option RegEntry :=
  (reg.find? (fun e => e.1 == k)).map Prod.snd

/-- Number of registry entries stored under key `k` (a genuine Go map
always has at most one). -/
def countKey (reg : Registry) (k : String) : Nat :=
  (reg.filter (fun e => e.1 == k)).length

/-- The fan-out of the worker's message branch (client.go:183-190): for
every entry of the subscriptions map whose dynamic type is
`subscription` and whose glob matches the channel, the message is sent
to that entry's destination.  Returns the destinations receiving the
message, in registry order. -/
def deliveries (reg : Registry) (channel : String) : List Dest :=
  reg.filterMap (fun e =>
    match e.2 with
    | .active s => if s.glob.matchString channel then some s.out else none
    | .placeholder => none)

/-- Result of `ioutil.ReadAll(rsp.Body)` followed by `json.Unmarshal`
(client.go:285-295): reading the body may fail, and an obtained body
either parses to a batch of envelopes or fails to parse. -/
inductive BodyRead
  | readErr (e : String)
  | parsed (r : Except String (List MetaMessage))

/-- Outcome of the single `c.http.Post` of one `send` call
(client.go:276): a network error, or a response with a status code and
a body. -/
inductive PostOutcome
  | netErr (e : String)
  | response (status : Nat) (body : BodyRead)

/-- The demultiplexing loop of `send` (client.go:301-307): iterate the
batch carrying the `reply` variable and the messages enqueued so far;
an envelope whose channel equals the request channel becomes the reply
(a later match overwrites an earlier one), every other envelope's
`Message` part is appended to the internal queue. -/
def demuxLoop : Option MetaMessage → List Message → String →
    List MetaMessage → Option MetaMessage × List Message
  | reply, q, _, [] => (reply, q)
  | reply, q, ch, msg :: rest =>
    if ch == msg.channel then demuxLoop (some msg) q ch rest
    else demuxLoop reply (q ++ [msg.toMessage]) ch rest

/-- `send` demultiplexing on a decoded batch, started with `reply = nil`
and nothing enqueued. -/
def demux (ch : String) (batch : List MetaMessage) :
    Option MetaMessage × List Message :=
  demuxLoop none [] ch batch

/-- `send` (client.go:270-310), as a function of the request channel and
of what the HTTP POST produced.  Returns either the error `send`
returns, or the pair (reply pointer, messages enqueued onto
`c.messages`).  A `nil` reply is `none`. -/
def send (ch : String) (o : PostOutcome) :
    Except String (Option MetaMessage × List Message) :=
  match o with
  | .netErr e => .error e
  | .response status body =>
    if status != 200 then .error ("HTTP Status " ++ toString status)
    else
      match body with
      | .readErr e => .error e
      | .parsed (.error e) => .error e
      | .parsed (.ok batch) => .ok (demux ch batch)

/-- Outcome of a Go call: a value, a returned `error`, or a runtime
panic (nil-pointer dereference). -/
inductive GoResult (α : Type)
  | ok (a : α)
  | err (e : String)
  | panic
  deriving DecidableEq, Repr

/-- `handshake` (client.go:202-217): send on `/meta/handshake`; on a
transport error return it; then read `rsp.Successful` — a panic if the
reply pointer is nil — and return the server error or the clientId. -/
def handshake (o : PostOutcome) : GoResult String :=
  match send "/meta/handshake" o with
  | .error e => .err e
  | .ok (none, _) => .panic
  | .ok (some rsp, _) =>
    if !rsp.successful then .err rsp.error else .ok rsp.clientId

/-- `doForgetSubscription` (client.go:135-140): store the placeholder
`""` under the raw pattern key. -/
def doForgetSubscription (reg : Registry) (pattern : String) : Registry :=
  mapSet reg pattern .placeholder

/-- `Unsubscribe` (client.go:113-129): send on `/meta/unsubscribe`;
return transport errors; panic if the reply is nil; return the server
error string when `successful` is false; otherwise forget the raw
pattern key and succeed.  Returns the result together with the registry
after the call. -/
def Unsubscribe (reg : Registry) (pattern : String) (o : PostOutcome) :
    GoResult Unit × Registry :=
  match send "/meta/unsubscribe" o with
  | .error e => (.err e, reg)
  | .ok (none, _) => (.panic, reg)
  | .ok (some rsp, _) =>
    if !rsp.successful then (.err rsp.error, reg)
    else (.ok (), doForgetSubscription reg pattern)

/-- `disconnect` (client.go:228-240). -/
def disconnect (o : PostOutcome) : GoResult Unit :=
  match send "/meta/disconnect" o with
  | .error e => .err e
  | .ok (none, _) => .panic
  | .ok (some rsp, _) =>
    if !rsp.successful then .err rsp.error else .ok ()

/-- `subscribe` (client.go:242-268), as a function of the compiler of
the external glob library, the pattern, the destination and the POST
outcome.  Returns the call result, the registry after the call, and
whether an HTTP POST was issued.  Compilation failure returns the
`Invalid pattern: ...` error before any network activity; a successful
server reply registers the subscription under the glob's canonical
string form `glob.String()`. -/
def subscribe (reg : Registry) (compile : String → Except String Glob)
    (pattern : String) (out : Dest) (o : PostOutcome) :
    GoResult Unit × Registry × Bool :=
  match compile pattern with
  | .error e => (.err ("Invalid pattern: " ++ e), reg, false)
  | .ok g =>
    match send "/meta/subscribe" o with
    | .error e => (.err e, reg, true)
    | .ok (none, _) => (.panic, reg, true)
    | .ok (some rsp, _) =>
      if !rsp.successful then (.err rsp.error, reg, true)
      else (.ok (), mapSet reg g.canonical (.active ⟨g, out⟩), true)

/-- The client state the lifecycle claims need (client.go:24-34):
`tomb` is `none` while the Go field holds a nil pointer. -/
structure ClientState where
  clientId : String
  connected : Bool
  tomb : Option Unit
  subscriptions : Registry

/-- `NewClient` (client.go:84-95): disconnected, no tomb, empty
registry. -/
def newClient : ClientState :=
  ⟨"", false, none, []⟩

/-- `ensureConnected` (client.go:157-178): a no-op when already
connected; otherwise perform the handshake and, only on success, mark
connected and create the tomb (starting the worker). -/
def ensureConnected (c : ClientState) (o : PostOutcome) :
    GoResult Unit × ClientState :=
  if c.connected then (.ok (), c)
  else
    match handshake o with
    | .panic => (.panic, c)
    | .err e => (.err e, c)
    | .ok cid =>
      (.ok (), { c with clientId := cid, connected := true, tomb := some () })

/-- `Close` (client.go:105-111): `c.tomb.Killf("Close")` dereferences
the tomb pointer — a panic when it is nil — then clears `connected` and
sends `/meta/disconnect`. -/
def Close (c : ClientState) (o : PostOutcome) :
    GoResult Unit × ClientState :=
  match c.tomb with
  | none => (.panic, c)
  | some _ => (disconnect o, { c with connected := false })

/-- One of the three events the worker's `select` races
(client.go:182-198): a message from the internal queue, the tomb dying,
or the interval timer firing (whose `c.connect()` call produced the
given result). -/
inductive WorkerEvent
  | message (m : Message)
  | dying
  | tick (connectResult : Except String (Option MetaMessage × List Message))

/-- What one worker iteration does: keep looping (after the given
deliveries) or return. -/
inductive StepOut
  | cont (sends : List (Dest × Message))
  | stop

/-- One iteration of `worker` (client.go:180-200): a queued message is
fanned out to all matching active subscriptions; the tomb dying returns
from the loop; a tick logs any connect failure and loops on. -/
def workerStep (reg : Registry) (e : WorkerEvent) : StepOut :=
  match e with
  | .message m => .cont ((deliveries reg m.channel).map (fun d => (d, m)))
  | .dying => .stop
  | .tick _ => .cont []

/-- Whether the worker is still running after processing a sequence of
events: `false` exactly when some event made it return. -/
def workerRuns (reg : Registry) : List WorkerEvent → Bool
  | [] => true
  | e :: es =>
    match workerStep reg e with
    | .stop => false
    | .cont _ => workerRuns reg es

/-! ## Lemmas about the demultiplexing loop -/

/-- The enqueued-messages accumulator of `demuxLoop` is a prefix: running
with accumulator `q` appends the run with an empty accumulator. -/
theorem demuxLoop_acc (ch : String) :
    ∀ (batch : List MetaMessage) (reply : Option MetaMessage) (q : List Message),
      demuxLoop reply q ch batch =
        ((demuxLoop reply [] ch batch).1, q ++ (demuxLoop reply [] ch batch).2) := by
  intro batch
  induction batch with
  | nil => intro reply q; simp [demuxLoop]
  | cons msg rest ih =>
    intro reply q
    by_cases hch : (ch == msg.channel) = true
    · simp only [demuxLoop, hch, if_pos]
      exact ih (some msg) q
    · simp only [demuxLoop, hch, if_neg, Bool.not_eq_true, List.nil_append]
      rw [ih reply (q ++ [msg.toMessage]), ih reply [msg.toMessage]]
      simp

/-- When no envelope of the batch matches the request channel, the loop
keeps the incoming reply and enqueues the whole batch in order. -/
theorem demuxLoop_no_match (ch : String) :
    ∀ (batch : List MetaMessage) (reply : Option MetaMessage) (q : List Message),
      (∀ m ∈ batch, (ch == m.channel) = false) →
      demuxLoop reply q ch batch = (reply, q ++ batch.map MetaMessage.toMessage) := by
  intro batch
  induction batch with
  | nil => intro reply q _; simp [demuxLoop]
  | cons msg rest ih =>
    intro reply q h
    have hch : (ch == msg.channel) = false := h msg (List.mem_cons_self _ _)
    simp only [demuxLoop, hch, Bool.false_eq_true, if_neg, not_false_iff]
    rw [ih reply (q ++ [msg.toMessage]) (fun m hm => h m (List.mem_cons_of_mem _ hm))]
    simp

/-- On a batch with at most one envelope on the request channel, the
demultiplexing loop returns that envelope (if any) as the reply and
enqueues exactly the other envelopes, in batch order. -/
theorem demux_spec (ch : String) :
    ∀ batch : List MetaMessage,
      (batch.filter (fun m => ch == m.channel)).length ≤ 1 →
      demux ch batch =
        (batch.find? (fun m => ch == m.channel),
          (batch.filter (fun m => !(ch == m.channel))).map MetaMessage.toMessage) := by
  intro batch
  induction batch with
  | nil => intro _; simp [demux, demuxLoop]
  | cons msg rest ih =>
    intro h
    by_cases hch : (ch == msg.channel) = true
    · have hlen : (rest.filter (fun m => ch == m.channel)).length = 0 := by
        simp only [List.filter_cons, hch, if_pos, List.length_cons] at h
        omega
      have hrest : ∀ m ∈ rest, (ch == m.channel) = false := by
        intro m hm
        have := List.filter_eq_nil_iff.mp (List.length_eq_zero.mp hlen) m hm
        simpa using this
      unfold demux
      simp only [demuxLoop, hch, if_pos]
      rw [demuxLoop_no_match ch rest (some msg) [] hrest]
      have hfilter : (msg :: rest).filter (fun m => !(ch == m.channel)) = rest := by
        simp only [List.filter_cons, hch, Bool.not_true, Bool.false_eq_true,
          if_neg, not_false_iff]
        exact List.filter_eq_self.mpr (fun m hm => by simp [hrest m hm])
      rw [hfilter]
      simp [List.find?, hch]
    · have hch' : (ch == msg.channel) = false := by
        simpa using hch
      have hh : (rest.filter (fun m => ch == m.channel)).length ≤ 1 := by
        simpa [List.filter_cons, hch'] using h
      unfold demux
      simp only [demuxLoop, hch', Bool.false_eq_true, if_neg, not_false_iff,
        List.nil_append]
      rw [demuxLoop_acc ch rest none [msg.toMessage]]
      rw [show demuxLoop none [] ch rest = demux ch rest from rfl, ih hh]
      simp [List.find?, hch', List.filter_cons]

/-- C1: for every request sent via `send` and every decoded response
batch with at most one envelope on the request's channel, the reply
returned to the caller is exactly that envelope (`none` when there is
none), and every other envelope of the batch is enqueued onto the
worker's internal message queue, in batch order. -/
theorem send_demultiplexes (ch : String) (batch : List MetaMessage)
    (h : (batch.filter (fun m => ch == m.channel)).length ≤ 1) :
    send ch (.response 200 (.parsed (.ok batch))) =
      .ok (batch.find? (fun m => ch == m.channel),
        (batch.filter (fun m => !(ch == m.channel))).map MetaMessage.toMessage) := by
  rw [show send ch (.response 200 (.parsed (.ok batch))) = .ok (demux ch batch)
      from rfl]
  rw [demux_spec ch batch h]

/-- The connect reply of the C1 witness batch. -/
def connectReply : MetaMessage :=
  ⟨"/meta/connect", "", "", "", true, ""⟩

/-- First pushed envelope of the C1 witness batch. -/
def pushA : MetaMessage :=
  ⟨"/chat/room1", "hi", "1", "", false, ""⟩

/-- Second pushed envelope of the C1 witness batch. -/
def pushB : MetaMessage :=
  ⟨"/chat/room2", "yo", "2", "", false, ""⟩

/-- C1 witness: a `/meta/connect` batch of the connect reply plus two
pushed envelopes yields exactly the connect reply and enqueues exactly
the two pushed messages, in order. -/
theorem send_demultiplexes_witness :
    send "/meta/connect" (.response 200 (.parsed (.ok [connectReply, pushA, pushB]))) =
      .ok (some connectReply, [pushA.toMessage, pushB.toMessage]) := by
  have h := send_demultiplexes "/meta/connect" [connectReply, pushA, pushB]
    (by decide)
  rw [h]
  rfl

/-! ## Worker fan-out and loop behaviour -/

/-- A destination is in the fan-out of a channel exactly when some
active registry entry matches that channel and points at it. -/
theorem mem_deliveries (reg : Registry) (ch : String) (d : Dest) :
    d ∈ deliveries reg ch ↔
      ∃ k s, (k, RegEntry.active s) ∈ reg ∧
        s.glob.matchString ch = true ∧ s.out = d := by
  unfold deliveries
  rw [List.mem_filterMap]
  constructor
  · rintro ⟨⟨k, ent⟩, hmem, hf⟩
    cases ent with
    | active s =>
      by_cases hm : s.glob.matchString ch = true
      · refine ⟨k, s, hmem, hm, ?_⟩
        simp only [hm, if_pos] at hf
        exact Option.some.inj hf
      · simp only [Bool.not_eq_true] at hm
        simp [hm] at hf
    | placeholder => simp at hf
  · rintro ⟨k, s, hmem, hm, hout⟩
    exact ⟨(k, .active s), hmem, by simp [hm, hout]⟩

/-- C2: on a pushed message, the worker delivers to a destination `d`
exactly when some registered active subscription whose glob matches the
message's channel has destination `d`; the first conjunct ties the
worker's message branch to the `deliveries` fan-out. -/
theorem worker_fanout (reg : Registry) (m : Message) (d : Dest) :
    workerStep reg (.message m) =
      .cont ((deliveries reg m.channel).map (fun x => (x, m))) ∧
    (d ∈ deliveries reg m.channel ↔
      ∃ k s, (k, RegEntry.active s) ∈ reg ∧
        s.glob.matchString m.channel = true ∧ s.out = d) :=
  ⟨rfl, mem_deliveries reg m.channel d⟩

/-- C8: the worker never returns because of a failed `/meta/connect`:
over any event sequence that contains no stop signal it is still
running (every connect failure is merely logged and the loop goes on),
and an iteration returns exactly on the stop signal. -/
theorem worker_only_stops_on_dying (reg : Registry) (events : List WorkerEvent)
    (h : WorkerEvent.dying ∉ events) :
    workerRuns reg events = true ∧
    ∀ e : WorkerEvent, workerStep reg e = .stop ↔ e = .dying := by
  constructor
  · induction events with
    | nil => rfl
    | cons e es ih =>
      have he : e ≠ WorkerEvent.dying := by
        intro hcon
        exact h (hcon ▸ List.mem_cons_self _ _)
      have hes : WorkerEvent.dying ∉ es := fun hm => h (List.mem_cons_of_mem _ hm)
      cases e with
      | message m => simpa [workerRuns, workerStep] using ih hes
      | dying => exact absurd rfl he
      | tick r => simpa [workerRuns, workerStep] using ih hes
  · intro e
    cases e <;> simp [workerStep]

/-- C8 witness: two consecutive connect failures leave the worker
running, and a failing tick is not a stopping iteration. -/
theorem worker_only_stops_on_dying_witness :
    workerRuns [] [.tick (.error "connection refused"),
        .tick (.error "HTTP Status 503")] = true ∧
    ∀ e : WorkerEvent, workerStep [] e = .stop ↔ e = .dying :=
  worker_only_stops_on_dying []
    [.tick (.error "connection refused"), .tick (.error "HTTP Status 503")]
    (by intro h; simp [List.mem_cons] at h)

/-! ## Registry map lemmas -/

/-- Looking up the key just assigned returns the assigned value. -/
theorem mapGet_mapSet_self (k : String) (v : RegEntry) :
    ∀ reg : Registry, mapGet (mapSet reg k v) k = some v := by
  intro reg
  induction reg with
  | nil => simp [mapSet, mapGet, List.find?]
  | cons e0 rest ih =>
    obtain ⟨k0, v0⟩ := e0
    by_cases hk : (k0 == k) = true
    · simp [mapSet, hk, mapGet, List.find?]
    · have hk' : (k0 == k) = false := by simpa using hk
      simp only [mapSet, hk', Bool.false_eq_true, if_neg, not_false_iff]
      simpa [mapGet, List.find?, hk'] using ih

/-- Assigning key `k` in a map that holds `k` at most once leaves
exactly one entry under `k`. -/
theorem countKey_mapSet (k : String) (v : RegEntry) :
    ∀ reg : Registry, countKey reg k ≤ 1 → countKey (mapSet reg k v) k = 1 := by
  intro reg
  induction reg with
  | nil => simp [mapSet, countKey, List.filter_cons]
  | cons e0 rest ih =>
    obtain ⟨k0, v0⟩ := e0
    intro h
    by_cases hk : (k0 == k) = true
    · have h0 : countKey rest k = 0 := by
        unfold countKey at h ⊢
        rw [List.filter_cons] at h
        simp only [hk, if_pos, List.length_cons] at h
        omega
      simp only [mapSet, hk, if_pos]
      unfold countKey at h0 ⊢
      rw [List.filter_cons]
      simp [h0]
    · have hk' : (k0 == k) = false := by simpa using hk
      have h' : countKey rest k ≤ 1 := by
        unfold countKey at h ⊢
        rw [List.filter_cons] at h
        simpa [hk'] using h
      simp only [mapSet, hk', Bool.false_eq_true, if_neg, not_false_iff]
      unfold countKey at ih ⊢
      rw [List.filter_cons]
      simpa [hk'] using ih h'

/-- An entry of the updated map whose key differs from the assigned key
was already in the map. -/
theorem mem_mapSet_ne (k k' : String) (v : RegEntry) (e : RegEntry)
    (hne : k' ≠ k) :
    ∀ reg : Registry, (k', e) ∈ mapSet reg k v → (k', e) ∈ reg := by
  intro reg
  induction reg with
  | nil =>
    intro hmem
    rw [show mapSet [] k v = [(k, v)] from rfl] at hmem
    rcases List.mem_singleton.mp hmem with h
    exact absurd (Prod.ext_iff.mp h).1 hne
  | cons e0 rest ih =>
    obtain ⟨k0, v0⟩ := e0
    intro hmem
    by_cases hk : (k0 == k) = true
    · simp only [mapSet, hk, if_pos] at hmem
      rcases List.mem_cons.mp hmem with h1 | h2
      · exact absurd (Prod.ext_iff.mp h1).1 hne
      · exact List.mem_cons_of_mem _ h2
    · have hk' : (k0 == k) = false := by simpa using hk
      simp only [mapSet, hk', Bool.false_eq_true, if_neg, not_false_iff] at hmem
      rcases List.mem_cons.mp hmem with h1 | h2
      · exact h1 ▸ List.mem_cons_self _ _
      · exact List.mem_cons_of_mem _ (ih h2)

/-- In a map that holds the assigned key at most once, the only entry
under that key after the assignment carries the assigned value. -/
theorem mem_mapSet_self_eq (k : String) (v : RegEntry) (e : RegEntry) :
    ∀ reg : Registry, countKey reg k ≤ 1 → (k, e) ∈ mapSet reg k v → e = v := by
  intro reg
  induction reg with
  | nil =>
    intro _ hmem
    rw [show mapSet [] k v = [(k, v)] from rfl] at hmem
    exact (Prod.ext_iff.mp (List.mem_singleton.mp hmem)).2
  | cons e0 rest ih =>
    obtain ⟨k0, v0⟩ := e0
    intro h hmem
    by_cases hk : (k0 == k) = true
    · have h0 : countKey rest k = 0 := by
        unfold countKey at h ⊢
        rw [List.filter_cons] at h
        simp only [hk, if_pos, List.length_cons] at h
        omega
      simp only [mapSet, hk, if_pos] at hmem
      rcases List.mem_cons.mp hmem with h1 | h2
      · exact (Prod.ext_iff.mp h1).2
      · exfalso
        have hnil := List.filter_eq_nil_iff.mp (List.length_eq_zero.mp h0)
        have := hnil (k, e) h2
        simp at this
    · have hk' : (k0 == k) = false := by simpa using hk
      have h' : countKey rest k ≤ 1 := by
        unfold countKey at h ⊢
        rw [List.filter_cons] at h
        simpa [hk'] using h
      simp only [mapSet, hk', Bool.false_eq_true, if_neg, not_false_iff] at hmem
      rcases List.mem_cons.mp hmem with h1 | h2
      · exfalso
        have hkk : k = k0 := (Prod.ext_iff.mp h1).1
        rw [← hkk] at hk'
        simp at hk'
      · exact ih h' h2

/-! ## Success cases of subscribe and Unsubscribe -/

/-- When `subscribe` succeeds, the registry after the call is the old
registry with the subscription stored under the glob's canonical string
form. -/
theorem subscribe_ok_registry (reg : Registry)
    (compile : String → Except String Glob) (pattern : String) (d : Dest)
    (o : PostOutcome) (g : Glob) (hc : compile pattern = .ok g)
    (hok : (subscribe reg compile pattern d o).1 = .ok ()) :
    (subscribe reg compile pattern d o).2.1 =
      mapSet reg g.canonical (.active ⟨g, d⟩) := by
  simp only [subscribe, hc] at hok ⊢
  cases hs : send "/meta/subscribe" o with
  | error e => rw [hs] at hok; simp at hok
  | ok pr =>
    obtain ⟨r, q⟩ := pr
    cases r with
    | none => rw [hs] at hok; simp at hok
    | some rsp =>
      rw [hs] at hok
      by_cases hsucc : rsp.successful = true
      · simp [hsucc]
      · have : rsp.successful = false := by simpa using hsucc
        simp [this] at hok

/-- When `Unsubscribe` succeeds, the registry after the call is the old
registry with the placeholder stored under the raw pattern key. -/
theorem Unsubscribe_ok_registry (reg : Registry) (pattern : String)
    (o : PostOutcome)
    (hok : (Unsubscribe reg pattern o).1 = .ok ()) :
    (Unsubscribe reg pattern o).2 = mapSet reg pattern .placeholder := by
  simp only [Unsubscribe] at hok ⊢
  cases hs : send "/meta/unsubscribe" o with
  | error e => rw [hs] at hok; simp at hok
  | ok pr =>
    obtain ⟨r, q⟩ := pr
    cases r with
    | none => rw [hs] at hok; simp at hok
    | some rsp =>
      rw [hs] at hok
      by_cases hsucc : rsp.successful = true
      · simp [hsucc, doForgetSubscription]
      · have : rsp.successful = false := by simpa using hsucc
        simp [this] at hok

/-- C4: two successful subscribe calls whose patterns compile to globs
with the same canonical string form leave exactly one registry entry
under that canonical key, and it holds the later call's destination. -/
theorem subscribe_same_canonical_last_wins
    (reg : Registry) (compile : String → Except String Glob)
    (p1 p2 : String) (d1 d2 : Dest) (g1 g2 : Glob) (o1 o2 : PostOutcome)
    (hc1 : compile p1 = .ok g1) (hc2 : compile p2 = .ok g2)
    (hk : g1.canonical = g2.canonical)
    (hu : countKey reg g2.canonical ≤ 1)
    (h1 : (subscribe reg compile p1 d1 o1).1 = .ok ())
    (h2 : (subscribe (subscribe reg compile p1 d1 o1).2.1
      compile p2 d2 o2).1 = .ok ()) :
    countKey (subscribe (subscribe reg compile p1 d1 o1).2.1
        compile p2 d2 o2).2.1 g2.canonical = 1 ∧
    mapGet (subscribe (subscribe reg compile p1 d1 o1).2.1
        compile p2 d2 o2).2.1 g2.canonical = some (.active ⟨g2, d2⟩) := by
  have e1 := subscribe_ok_registry reg compile p1 d1 o1 g1 hc1 h1
  have e2 := subscribe_ok_registry (subscribe reg compile p1 d1 o1).2.1
    compile p2 d2 o2 g2 hc2 h2
  rw [e2, e1, hk]
  constructor
  · exact countKey_mapSet _ _ _
      (le_of_eq (countKey_mapSet _ _ _ hu))
  · exact mapGet_mapSet_self _ _ _

/-- The glob both C4 witness calls compile to. -/
def c4Glob : Glob :=
  ⟨"/foo/*", fun ch => ch == "/foo/x"⟩

/-- C4 witness compiler: every pattern compiles to `c4Glob`. -/
def c4Compile : String → Except String Glob :=
  fun _ => .ok c4Glob

/-- A successful `/meta/subscribe` reply for the C4 witness. -/
def c4Ok : PostOutcome :=
  .response 200 (.parsed (.ok [⟨"/meta/subscribe", "", "", "", true, ""⟩]))

/-- C4 witness: registering `"/foo/*"` twice with destinations 1 and 2
leaves exactly one registry entry, pointing at destination 2. -/
theorem subscribe_same_canonical_last_wins_witness :
    countKey (subscribe (subscribe [] c4Compile "/foo/*" 1 c4Ok).2.1
        c4Compile "/foo/*" 2 c4Ok).2.1 c4Glob.canonical = 1 ∧
    mapGet (subscribe (subscribe [] c4Compile "/foo/*" 1 c4Ok).2.1
        c4Compile "/foo/*" 2 c4Ok).2.1 c4Glob.canonical =
      some (.active ⟨c4Glob, 2⟩) :=
  subscribe_same_canonical_last_wins [] c4Compile "/foo/*" "/foo/*" 1 2
    c4Glob c4Glob c4Ok c4Ok rfl rfl rfl (by decide) (by decide) (by decide)

/-- C5: when pattern compilation fails, `subscribe` returns the
`Invalid pattern:` error wrapping the compiler's message, issues no
HTTP POST, and leaves the registry unchanged. -/
theorem subscribe_invalid_pattern (reg : Registry)
    (compile : String → Except String Glob) (pattern : String) (d : Dest)
    (o : PostOutcome) (e : String) (hc : compile pattern = .error e) :
    subscribe reg compile pattern d o =
      (.err ("Invalid pattern: " ++ e), reg, false) := by
  simp [subscribe, hc]

/-- C5 witness compiler: compilation always fails with the message of
an unbalanced bracket. -/
def c5Compile : String → Except String Glob :=
  fun _ => .error "unexpected end of input"

/-- C5 witness: subscribing with a pattern that fails to compile
returns the wrapped compiler message, performs no POST, and leaves the
empty registry empty. -/
theorem subscribe_invalid_pattern_witness :
    subscribe [] c5Compile "/chat/[" 3 (.netErr "no request was made") =
      (.err ("Invalid pattern: " ++ "unexpected end of input"), [], false) :=
  subscribe_invalid_pattern [] c5Compile "/chat/[" 3
    (.netErr "no request was made") "unexpected end of input" rfl

/-- C6: when the server's unsubscribe reply has `successful=false` with
error string `e`, `Unsubscribe` returns exactly that error and the
registry — hence the fan-out of every channel — is unchanged. -/
theorem Unsubscribe_failure_keeps_registry (reg : Registry) (p : String)
    (o : PostOutcome) (rsp : MetaMessage) (q : List Message)
    (hsend : send "/meta/unsubscribe" o = .ok (some rsp, q))
    (hfail : rsp.successful = false) :
    Unsubscribe reg p o = (.err rsp.error, reg) ∧
    ∀ ch, deliveries (Unsubscribe reg p o).2 ch = deliveries reg ch := by
  have h : Unsubscribe reg p o = (.err rsp.error, reg) := by
    simp [Unsubscribe, hsend, hfail]
  exact ⟨h, fun ch => by rw [h]⟩

/-- Registry of the C6 witness: one active subscription on `"/foo/*"`. -/
def c6Reg : Registry :=
  [("/foo/*", .active ⟨⟨"/foo/*", fun ch => ch == "/foo/x"⟩, 4⟩)]

/-- The failed unsubscribe reply of the C6 witness. -/
def c6Rsp : MetaMessage :=
  ⟨"/meta/unsubscribe", "", "", "", false, "Unknown client"⟩

/-- The POST outcome of the C6 witness. -/
def c6Fail : PostOutcome :=
  .response 200 (.parsed (.ok [c6Rsp]))

/-- C6 witness: a server-failed unsubscribe returns `Unknown client`
and the `"/foo/*"` entry keeps receiving `/foo/x`. -/
theorem Unsubscribe_failure_keeps_registry_witness :
    Unsubscribe c6Reg "/foo/*" c6Fail = (.err "Unknown client", c6Reg) ∧
    deliveries (Unsubscribe c6Reg "/foo/*" c6Fail).2 "/foo/x" =
      deliveries c6Reg "/foo/x" :=
  ⟨(Unsubscribe_failure_keeps_registry c6Reg "/foo/*" c6Fail c6Rsp [] rfl rfl).1,
   (Unsubscribe_failure_keeps_registry c6Reg "/foo/*" c6Fail c6Rsp [] rfl rfl).2
     "/foo/x"⟩

/-- The compiled glob of the C3 counterexample: its canonical string
form differs from the raw pattern it was compiled from (the spec's
registry is keyed by the canonical form, not the raw input). -/
def c3Glob : Glob :=
  ⟨"/canonical", fun ch => ch == "/chat/room1"⟩

/-- C3 counterexample compiler: `"/chat/*"` compiles to `c3Glob`. -/
def c3Compile : String → Except String Glob :=
  fun _ => .ok c3Glob

/-- A successful `/meta/subscribe` reply for the C3 counterexample. -/
def c3SubOk : PostOutcome :=
  .response 200 (.parsed (.ok [⟨"/meta/subscribe", "", "", "", true, ""⟩]))

/-- A successful `/meta/unsubscribe` reply for C3. -/
def c3UnsubOk : PostOutcome :=
  .response 200 (.parsed (.ok [⟨"/meta/unsubscribe", "", "", "", true, ""⟩]))

/-- Registry after the C3 counterexample's subscribe call. -/
def c3Reg : Registry :=
  (subscribe [] c3Compile "/chat/*" 7 c3SubOk).2.1

/-- C3 counterexample: a subscription registered with pattern
`"/chat/*"` (stored under the canonical key `"/canonical"` of its
compiled glob), then successfully unsubscribed with the same raw
pattern, still receives a message on a channel the pattern matches:
`doForgetSubscription` marks the raw-pattern key, not the canonical
key under which `subscribe` registered the entry. -/
theorem Unsubscribe_raw_key_cex :
    (subscribe [] c3Compile "/chat/*" 7 c3SubOk).1 = .ok () ∧
    c3Glob.matchString "/chat/room1" = true ∧
    (Unsubscribe c3Reg "/chat/*" c3UnsubOk).1 = .ok () ∧
    7 ∈ deliveries (Unsubscribe c3Reg "/chat/*" c3UnsubOk).2 "/chat/room1" := by
  decide

/-- C3 amended: after a successful `Unsubscribe p`, the registry entry
under key `p` is overwritten with the inactive placeholder (not
deleted), so, provided every active entry feeding the subscription's
destination sits under key `p` — which holds when the pattern's
canonical compiled form equals the raw pattern `subscribe` registered —
no further message is delivered to that destination. -/
theorem Unsubscribe_deactivates_canonical_key (reg : Registry)
    (p ch : String) (d : Dest) (o : PostOutcome)
    (hu : countKey reg p ≤ 1)
    (hd : ∀ k s, (k, RegEntry.active s) ∈ reg → s.out = d → k = p)
    (hok : (Unsubscribe reg p o).1 = .ok ()) :
    mapGet (Unsubscribe reg p o).2 p = some RegEntry.placeholder ∧
    d ∉ deliveries (Unsubscribe reg p o).2 ch := by
  have e := Unsubscribe_ok_registry reg p o hok
  rw [e]
  refine ⟨mapGet_mapSet_self p _ reg, ?_⟩
  intro hmem
  obtain ⟨k, s, hks, _, hout⟩ := (mem_deliveries _ _ _).mp hmem
  by_cases hkp : k = p
  · subst hkp
    exact RegEntry.noConfusion
      (mem_mapSet_self_eq k .placeholder (.active s) reg hu hks)
  · exact hkp (hd k s (mem_mapSet_ne p k .placeholder (.active s) hkp reg hks)
      hout)

/-- Registry of the C3 amended witness: one subscription whose
canonical key equals its raw pattern `"/news/*"`. -/
def c3wReg : Registry :=
  [("/news/*", .active ⟨⟨"/news/*", fun ch => ch == "/news/today"⟩, 5⟩)]

/-- C3 amended witness: unsubscribing `"/news/*"` marks its entry with
the placeholder and stops delivery of `/news/today` to destination 5. -/
theorem Unsubscribe_deactivates_canonical_key_witness :
    mapGet (Unsubscribe c3wReg "/news/*" c3UnsubOk).2 "/news/*" =
      some RegEntry.placeholder ∧
    5 ∉ deliveries (Unsubscribe c3wReg "/news/*" c3UnsubOk).2 "/news/today" :=
  Unsubscribe_deactivates_canonical_key c3wReg "/news/*" "/news/today" 5
    c3UnsubOk (by decide)
    (by
      intro k s hmem _
      have h := List.mem_singleton.mp hmem
      exact (Prod.ext_iff.mp h).1)
    (by decide)

/-- Whether a `send` result is a transport error. -/
def sendFailed : Except String (Option MetaMessage × List Message) → Bool
  | .error _ => true
  | .ok _ => false

/-- C7 counterexample: HTTP status 201 is a success status and the
empty batch is a well-formed body, yet `send` returns a transport
error — the code rejects every status other than 200, not only
non-success statuses. -/
theorem send_success_status_201_cex :
    send "/meta/connect" (.response 201 (.parsed (.ok []))) =
      .error "HTTP Status 201" := by
  rfl

/-- C7 amended: `send` fails with a transport error exactly when the
POST itself fails, the status differs from 200 (success statuses such
as 201 included), the body read fails, or the batch fails to parse; on
a 200 response with a well-formed body it returns no transport
error. -/
theorem send_transport_error_characterization (ch : String) :
    (∀ e, send ch (.netErr e) = .error e) ∧
    (∀ s b, s ≠ 200 → sendFailed (send ch (.response s b)) = true) ∧
    (∀ e, send ch (.response 200 (.readErr e)) = .error e) ∧
    (∀ e, send ch (.response 200 (.parsed (.error e))) = .error e) ∧
    (∀ batch, sendFailed (send ch (.response 200 (.parsed (.ok batch)))) =
      false) := by
  refine ⟨fun e => rfl, ?_, fun e => rfl, fun e => rfl, fun batch => rfl⟩
  intro s b hs
  have hbne : (s != 200) = true := by simpa [bne_iff_ne] using hs
  simp [send, sendFailed, hbne]

/-- C7 amended witness: a failing status with a body read error is a
transport error. -/
theorem send_transport_error_characterization_witness :
    sendFailed (send "/meta/handshake" (.response 500 (.readErr "read failed")))
      = true :=
  (send_transport_error_characterization "/meta/handshake").2.1 500
    (.readErr "read failed") (by decide)

/-- C9: when the decoded batch contains no envelope on any of the four
operation channels, `send` returns a nil reply together with a nil
error, and each of `handshake`, `subscribe`, `Unsubscribe` and
`disconnect` — which unconditionally read `rsp.Successful` — panics on
the nil reply (and leaves the registry as it was). -/
theorem send_nil_reply_nil_error_panics (batch : List MetaMessage)
    (reg : Registry) (compile : String → Except String Glob)
    (pat unsubPat : String) (d : Dest) (g : Glob)
    (hc : compile pat = .ok g)
    (h : ∀ m ∈ batch,
      ("/meta/handshake" == m.channel) = false ∧
      ("/meta/subscribe" == m.channel) = false ∧
      ("/meta/unsubscribe" == m.channel) = false ∧
      ("/meta/disconnect" == m.channel) = false) :
    send "/meta/handshake" (.response 200 (.parsed (.ok batch))) =
      .ok (none, batch.map MetaMessage.toMessage) ∧
    handshake (.response 200 (.parsed (.ok batch))) = .panic ∧
    subscribe reg compile pat d (.response 200 (.parsed (.ok batch))) =
      (.panic, reg, true) ∧
    Unsubscribe reg unsubPat (.response 200 (.parsed (.ok batch))) =
      (.panic, reg) ∧
    disconnect (.response 200 (.parsed (.ok batch))) = .panic := by
  have key : ∀ ch : String, (∀ m ∈ batch, (ch == m.channel) = false) →
      send ch (.response 200 (.parsed (.ok batch))) =
        .ok (none, batch.map MetaMessage.toMessage) := by
    intro ch hch
    rw [show send ch (.response 200 (.parsed (.ok batch))) =
        .ok (demux ch batch) from rfl]
    rw [show demux ch batch = demuxLoop none [] ch batch from rfl,
      demuxLoop_no_match ch batch none [] hch]
    simp
  have k1 := key "/meta/handshake" (fun m hm => (h m hm).1)
  have k2 := key "/meta/subscribe" (fun m hm => (h m hm).2.1)
  have k3 := key "/meta/unsubscribe" (fun m hm => (h m hm).2.2.1)
  have k4 := key "/meta/disconnect" (fun m hm => (h m hm).2.2.2)
  refine ⟨k1, ?_, ?_, ?_, ?_⟩
  · simp [handshake, k1]
  · simp [subscribe, hc, k2]
  · simp [Unsubscribe, k3]
  · simp [disconnect, k4]

/-- Batch of the C9 witness: one pushed data message, no envelope on
any meta channel. -/
def c9Batch : List MetaMessage :=
  [⟨"/chat/lobby", "hello", "", "", false, ""⟩]

/-- POST outcome of the C9 witness. -/
def c9Outcome : PostOutcome :=
  .response 200 (.parsed (.ok c9Batch))

/-- Glob of the C9 witness compiler. -/
def c9Glob : Glob :=
  ⟨"/a", fun _ => true⟩

/-- C9 witness compiler. -/
def c9Compile : String → Except String Glob :=
  fun _ => .ok c9Glob

/-- C9 witness: a batch holding only a pushed data message makes `send`
return a nil reply and nil error, and every operation that reads the
reply panics. -/
theorem send_nil_reply_nil_error_panics_witness :
    send "/meta/handshake" c9Outcome =
      .ok (none, c9Batch.map MetaMessage.toMessage) ∧
    handshake c9Outcome = .panic ∧
    subscribe [] c9Compile "/a" 3 c9Outcome = (.panic, [], true) ∧
    Unsubscribe [] "/a" c9Outcome = (.panic, []) ∧
    disconnect c9Outcome = .panic :=
  send_nil_reply_nil_error_panics c9Batch [] c9Compile "/a" "/a" 3 c9Glob rfl
    (by decide)

/-- C10: the background-task handle is created only by a successful
`ensureConnected` — a fresh client has a nil tomb, a failed
`ensureConnected` leaves it nil, a successful one sets it — and `Close`
dereferences the tomb before anything else, so `Close` on a client that
never connected panics. -/
theorem Close_requires_prior_connect (o oc : PostOutcome) :
    newClient.tomb = none ∧
    Close newClient oc = (GoResult.panic, newClient) ∧
    ((ensureConnected newClient o).1 = .ok () →
      (ensureConnected newClient o).2.tomb = some ()) ∧
    ((ensureConnected newClient o).1 ≠ .ok () →
      (ensureConnected newClient o).2.tomb = none) := by
  refine ⟨rfl, rfl, ?_, ?_⟩
  · intro hok
    simp only [ensureConnected, newClient] at hok ⊢
    cases hh : handshake o with
    | panic => rw [hh] at hok; simp at hok
    | err e => rw [hh] at hok; simp at hok
    | ok cid => simp
  · intro hne
    simp only [ensureConnected, newClient] at hne ⊢
    cases hh : handshake o with
    | panic => simp
    | err e => simp
    | ok cid => rw [hh] at hne; simp at hne

/-- Successful handshake outcome of the C10 witness. -/
def c10Handshake : PostOutcome :=
  .response 200 (.parsed (.ok [⟨"/meta/handshake", "", "", "client123", true, ""⟩]))

/-- C10 witness: a fresh client has no tomb and panics on `Close`; after
a successful `ensureConnected` the tomb exists. -/
theorem Close_requires_prior_connect_witness :
    newClient.tomb = none ∧
    Close newClient (.netErr "never reaches the network") =
      (GoResult.panic, newClient) ∧
    (ensureConnected newClient c10Handshake).2.tomb = some () :=
  ⟨(Close_requires_prior_connect c10Handshake
      (.netErr "never reaches the network")).1,
   (Close_requires_prior_connect c10Handshake
      (.netErr "never reaches the network")).2.1,
   (Close_requires_prior_connect c10Handshake
      (.netErr "never reaches the network")).2.2.1 (by decide)⟩

end BayeuxClient
